import Mathlib

/-!
Shallow embedding of the resilient Gemini API-invocation layer of the
AIFD-V1 repository (`src/first_project/utils/gemini_client.py` together
with the constants of `src/first_project/config/settings.py`), and proofs
about its retry / fallback / classification behaviour.

Network calls are modelled by a trace `behavior : Nat → Except PyError α`
giving the outcome of the n-th invocation of the wrapped callable, and the
environment `Env` records which model-handle constructions fail.
-/

deriving instance DecidableEq for Except

namespace AIFD

/-- Constants from `gemini_client.py` (module level). -/
def QUOTA_ERROR_CODE : Nat := 429

def RETRY_ATTEMPTS : Nat := 3

def RETRY_DELAY_BASE : Nat := 2

def DEFAULT_MODEL : String := "gemini-2.5-flash"

def FALLBACK_MODEL : String := "gemini-1.5-flash"

/-- Constants from `config/settings.py`.  The temperature is the float
literal `0.7`; only its zero-test and its exact value matter to the
client, so it is embedded as the rational 7/10 (written in lowest terms
so that the kernel can evaluate comparisons on it). -/
def DEFAULT_TEMPERATURE : ℚ := ⟨7, 10, by decide, by decide⟩

def DEFAULT_MAX_TOKENS : Nat := 8192

/-- The float literal `0.95` (= 19/20 in lowest terms). -/
def DEFAULT_TOP_P : ℚ := ⟨19, 20, by decide, by decide⟩

def DEFAULT_TOP_K : Nat := 40

/-- The embedded temperature default really is 0.7. -/
theorem DEFAULT_TEMPERATURE_eq : DEFAULT_TEMPERATURE = 7/10 := by
  show (⟨7, 10, by decide, by decide⟩ : ℚ) = 7/10
  rw [Rat.mk'_eq_divInt, Rat.divInt_eq_div]
  norm_num

/-- The embedded top_p literal really is 0.95. -/
theorem DEFAULT_TOP_P_eq : DEFAULT_TOP_P = 95/100 := by
  show (⟨19, 20, by decide, by decide⟩ : ℚ) = 95/100
  rw [Rat.mk'_eq_divInt, Rat.divInt_eq_div]
  norm_num

/-- `AppConfig.ERROR_MESSAGES["api_key_missing"]` from `settings.py`. -/
def API_KEY_MISSING_MSG : String :=
  "API anahtarı eksik. Lütfen .env dosyasına GEMINI_API_KEY ekleyin."

/-- A Python exception value as the client observes it: an optional
`status_code` attribute (`hasattr(error, 'status_code')`) and the textual
representation `str(error)`. -/
structure PyError where
  status_code : Option Nat
  msg : String
deriving DecidableEq

/-- `pat.isPrefixOf` tested at every tail of the haystack: Python's
substring test `pat in hay`. -/
def charsContain (pat : List Char) : List Char → Bool
  | [] => pat.isEmpty
  | c :: t => pat.isPrefixOf (c :: t) || charsContain pat t

/-- `pat in s` on strings. -/
def strContainsSub (s pat : String) : Bool :=
  charsContain pat.toList s.toList

/-- `s.lower()`.  The quota keywords are pure ASCII, so the ASCII case fold
of `Char.toLower` is the behaviour the classifier depends on. -/
def strLower (s : String) : String :=
  ⟨s.toList.map Char.toLower⟩

/-- Keyword list of `GeminiClient._is_quota_error`. -/
def quota_keywords : List String :=
  ["quota", "rate limit", "resource exhausted", "too many requests"]

namespace GeminiClient

/-- `GeminiClient._is_quota_error`: if a `status_code` attribute is present
and equals 429 the error is a quota error; otherwise (including when a
different status code is present) the lower-cased text is searched for the
quota keywords. -/
def isQuotaError (error : PyError) : Bool :=
  match error.status_code with
  | some code =>
      if code == QUOTA_ERROR_CODE then true
      else quota_keywords.any (fun k => strContainsSub (strLower error.msg) k)
  | none => quota_keywords.any (fun k => strContainsSub (strLower error.msg) k)

end GeminiClient

/-- `genai.types.GenerationConfig` as built by `_configure_model`. -/
structure GenerationConfig where
  temperature : ℚ
  max_output_tokens : Nat
  top_p : ℚ
  top_k : Nat
deriving DecidableEq

/-- `google.generativeai.types.HarmBlockThreshold`. -/
inductive HarmBlockThreshold where
  | BLOCK_NONE
  | BLOCK_ONLY_HIGH
  | BLOCK_MEDIUM_AND_ABOVE
  | BLOCK_LOW_AND_ABOVE
deriving DecidableEq

/-- `google.generativeai.types.HarmCategory` (the four categories the
client configures). -/
inductive HarmCategory where
  | HARM_CATEGORY_HARASSMENT
  | HARM_CATEGORY_HATE_SPEECH
  | HARM_CATEGORY_SEXUALLY_EXPLICIT
  | HARM_CATEGORY_DANGEROUS_CONTENT
deriving DecidableEq

/-- The `safety_settings` dict built by `_configure_model`: it always has
exactly these four keys. -/
structure SafetySettings where
  harassment : HarmBlockThreshold
  hate_speech : HarmBlockThreshold
  sexually_explicit : HarmBlockThreshold
  dangerous_content : HarmBlockThreshold
deriving DecidableEq

/-- Look a category up in the `safety_settings` dict. -/
def SafetySettings.get (ss : SafetySettings) : HarmCategory → HarmBlockThreshold
  | .HARM_CATEGORY_HARASSMENT => ss.harassment
  | .HARM_CATEGORY_HATE_SPEECH => ss.hate_speech
  | .HARM_CATEGORY_SEXUALLY_EXPLICIT => ss.sexually_explicit
  | .HARM_CATEGORY_DANGEROUS_CONTENT => ss.dangerous_content

/-- A successfully constructed `genai.GenerativeModel` handle. -/
structure ModelHandle where
  model_name : String
  generation_config : GenerationConfig
  safety_settings : SafetySettings
deriving DecidableEq

/-- The mutable state of a `GeminiClient` instance.  The chat session is
abstracted to presence (its transcript plays no role in the claims). -/
structure ClientState where
  api_key : String
  model : Option ModelHandle
  chat_session : Option Unit
  retry_attempts : Nat
  retry_delay : Nat
  current_model_name : String
  fallback_used : Bool
deriving DecidableEq

/-- The environment: which `genai.GenerativeModel(...)` constructions
raise (by model name), with which error, and whether `start_chat` raises. -/
structure Env where
  buildFails : String → Bool
  buildError : PyError
  startChatFails : Bool
  startChatError : PyError

/-- Python truthiness-based defaulting `x or d` for an optional numeric
argument: `None` and `0` are falsy. -/
def pyOrQ (x : Option ℚ) (d : ℚ) : ℚ :=
  match x with
  | none => d
  | some v => if v = 0 then d else v

/-- `x or d` for an optional integer argument: `None` and `0` are falsy. -/
def pyOrNat (x : Option Nat) (d : Nat) : Nat :=
  match x with
  | none => d
  | some v => if v = 0 then d else v

/-- `x or d` for an optional string argument: `None` and `""` are falsy. -/
def pyOrStr (x : Option String) (d : String) : String :=
  match x with
  | none => d
  | some v => if v = "" then d else v

/-- The `safety_mapping` dict literal of `_configure_model`. -/
def safety_mapping : List (String × HarmBlockThreshold) :=
  [("Minimum (BLOCK_NONE)", .BLOCK_NONE),
   ("Düşük (BLOCK_ONLY_HIGH)", .BLOCK_ONLY_HIGH),
   ("Orta (BLOCK_MEDIUM_AND_ABOVE)", .BLOCK_MEDIUM_AND_ABOVE),
   ("Yüksek (BLOCK_LOW_AND_ABOVE)", .BLOCK_LOW_AND_ABOVE)]

/-- `safety_mapping.get(safety_level, HarmBlockThreshold.BLOCK_NONE)`,
where `safety_level` may be `None`. -/
def safetyMappingGet (safety_level : Option String) : HarmBlockThreshold :=
  match safety_level with
  | none => .BLOCK_NONE
  | some s =>
      match safety_mapping.find? (fun p => p.1 == s) with
      | some p => p.2
      | none => .BLOCK_NONE

namespace GeminiClient

/-- `GeminiClient.__init__`: `api_key or AppConfig.GEMINI_API_KEY`, then
`if not self.api_key: raise ValueError(...)`.  `envKey` is
`os.getenv('GEMINI_API_KEY')`. -/
def init (api_key : Option String) (envKey : Option String) :
    Except PyError ClientState :=
  let key : String := pyOrStr api_key (pyOrStr envKey "")
  if key = "" then
    .error ⟨none, API_KEY_MISSING_MSG⟩
  else
    .ok { api_key := key
          model := none
          chat_session := none
          retry_attempts := RETRY_ATTEMPTS
          retry_delay := RETRY_DELAY_BASE
          current_model_name := DEFAULT_MODEL
          fallback_used := false }

/-- `GeminiClient._configure_model`.  Defaulting uses Python `or`, the
handle construction fails when the environment says so, and
`_current_model_name` is updated only after a successful construction. -/
def configureModel (env : Env) (st : ClientState) (model_name : Option String)
    (temperature : Option ℚ) (max_tokens : Option Nat)
    (safety_level : Option String) : Except PyError ClientState :=
  let model_name := pyOrStr model_name st.current_model_name
  let temperature := pyOrQ temperature DEFAULT_TEMPERATURE
  let max_tokens := pyOrNat max_tokens DEFAULT_MAX_TOKENS
  let generation_config : GenerationConfig :=
    { temperature := temperature
      max_output_tokens := max_tokens
      top_p := DEFAULT_TOP_P  -- the literal 0.95
      top_k := 40 }
  let safety_threshold := safetyMappingGet safety_level
  let safety_settings : SafetySettings :=
    { harassment := safety_threshold
      hate_speech := safety_threshold
      sexually_explicit := safety_threshold
      dangerous_content := safety_threshold }
  if env.buildFails model_name then
    .error env.buildError
  else
    .ok { st with
          model := some { model_name := model_name
                          generation_config := generation_config
                          safety_settings := safety_settings }
          current_model_name := model_name }

/-- `GeminiClient._switch_to_fallback_model`: no-op returning `False` when
already on the fallback model; otherwise reconfigure to `FALLBACK_MODEL`,
set `_fallback_used`, return `True` — and swallow a configuration failure,
returning `False` with the state unchanged. -/
def switchToFallbackModel (env : Env) (st : ClientState) :
    ClientState × Bool :=
  if st.current_model_name == FALLBACK_MODEL then
    (st, false)
  else
    match configureModel env st (some FALLBACK_MODEL) none none none with
    | .ok st1 => ({ st1 with fallback_used := true }, true)
    | .error _ => (st, false)

/-- A switch that returns `True` has moved the client onto the fallback
model, and can only have started from a different model. -/
theorem switch_true_shape (env : Env) (st st1 : ClientState)
    (h : switchToFallbackModel env st = (st1, true)) :
    st1.current_model_name = FALLBACK_MODEL ∧
      st.current_model_name ≠ FALLBACK_MODEL ∧ st1.fallback_used = true := by
  unfold switchToFallbackModel at h
  by_cases hc : st.current_model_name = FALLBACK_MODEL
  · simp [hc] at h
  · simp only [hc, beq_iff_eq, if_false, ite_false] at h
    cases hcfg : configureModel env st (some FALLBACK_MODEL) none none none with
    | ok st2 =>
        rw [hcfg] at h
        simp only [Prod.mk.injEq] at h
        unfold configureModel at hcfg
        simp [pyOrStr, FALLBACK_MODEL] at hcfg
        split at hcfg
        · exact absurd hcfg (by simp)
        · simp only [Except.ok.injEq] at hcfg
          subst hcfg
          refine ⟨?_, hc, ?_⟩
          · rw [← h.1]; rfl
          · rw [← h.1]
    | error e =>
        rw [hcfg] at h
        simp at h

/-- A switch that returns `False` leaves the state untouched. -/
theorem switch_false_shape (env : Env) (st st1 : ClientState)
    (h : switchToFallbackModel env st = (st1, false)) : st1 = st := by
  unfold switchToFallbackModel at h
  by_cases hc : st.current_model_name = FALLBACK_MODEL
  · simp [hc] at h
    exact h.symm
  · simp only [hc, beq_iff_eq, if_false, ite_false] at h
    cases hcfg : configureModel env st (some FALLBACK_MODEL) none none none with
    | ok st2 =>
        rw [hcfg] at h
        simp at h
    | error e =>
        rw [hcfg] at h
        simp only [Prod.mk.injEq] at h
        exact h.1.symm

end GeminiClient

/-- Outcome of one run of `_with_retry`: the returned value or raised
error (`.error none` is the degenerate `raise None` of an exhausted loop
that never ran, unreachable with `retry_attempts = 3`), the number of
invocations of the wrapped callable, the backoff sleeps performed in
order, and the client state when the wrapper finishes. -/
structure RetryResult (α : Type) where
  result : Except (Option PyError) α
  calls : Nat
  sleeps : List Nat
  finalState : ClientState

instance {α : Type} [DecidableEq α] : DecidableEq (RetryResult α) := by
  intro a b
  cases a; cases b
  exact decidable_of_iff _ (iff_of_eq (RetryResult.mk.injEq _ _ _ _ _ _ _ _)).symm

namespace GeminiClient

/-- The `while attempts < self._retry_attempts` loop of
`GeminiClient._with_retry`.  `behavior n` is the outcome of the n-th
invocation of the wrapped callable.  `ra`/`rd` are `self._retry_attempts`
and `self._retry_delay`, which `__init__` sets once and no method ever
writes again, so they are threaded as parameters.  On a quota error the
loop attempts the fallback switch; a successful switch resets `attempts`
to 0 and skips the sleep (`continue`), otherwise the loop sleeps
`rd * 2 ** (attempts - 1)` (with `attempts` already incremented) when a
retry remains. -/
def withRetryAux (env : Env) (behavior : Nat → Except PyError α) (ra rd : Nat)
    (st : ClientState) (attempts calls : Nat) (sleeps : List Nat)
    (lastErr : Option PyError) : RetryResult α :=
  if attempts < ra then
    match behavior calls with
    | .ok v => ⟨.ok v, calls + 1, sleeps, st⟩
    | .error e =>
      if isQuotaError e then
        match hsw : switchToFallbackModel env st with
        | (st1, true) =>
            withRetryAux env behavior ra rd st1 0 (calls + 1) sleeps (some e)
        | (st1, false) =>
            if attempts + 1 < ra then
              withRetryAux env behavior ra rd st1 (attempts + 1) (calls + 1)
                (sleeps ++ [rd * 2 ^ attempts]) (some e)
            else ⟨.error (some e), calls + 1, sleeps, st1⟩
      else
        if attempts + 1 < ra then
          withRetryAux env behavior ra rd st (attempts + 1) (calls + 1)
            (sleeps ++ [rd * 2 ^ attempts]) (some e)
        else ⟨.error (some e), calls + 1, sleeps, st⟩
  else ⟨.error lastErr, calls, sleeps, st⟩
termination_by
  (if st.current_model_name = FALLBACK_MODEL then 0 else ra + 1) + (ra - attempts)
decreasing_by
  · have hsh := switch_true_shape env st st1 hsw
    simp [hsh.1, hsh.2.1]
    omega
  · have hsh := switch_false_shape env st st1 hsw
    subst hsh
    omega
  · omega

/-- `GeminiClient._with_retry`. -/
def withRetry (env : Env) (st : ClientState)
    (behavior : Nat → Except PyError α) : RetryResult α :=
  withRetryAux env behavior st.retry_attempts st.retry_delay st 0 0 [] none

end GeminiClient

/-- A provider response as the client reads it: `text = none` models the
`.text` accessor raising `ValueError` (empty output / safety block). -/
structure GenResponse where
  text : Option String
deriving DecidableEq

/-- Sentinel returned by `generate_project_ideas` on a safety block. -/
def GENERATE_BLOCKED_MSG : String :=
  "Üretilen içerik güvenlik politikalarını ihlal ettiği için engellendi. Lütfen isteğinizi değiştirip tekrar deneyin."

/-- Disclosure suffix appended by `generate_project_ideas` when
`_fallback_used` is set (the two adjacent Python string literals,
concatenated). -/
def GENERATE_FALLBACK_NOTICE : String :=
  "\n\n---\n*Not: Bu içerik alternatif bir model (gemini-1.5-flash) kullanılarak oluşturulmuştur. Ana model kota sınırlaması nedeniyle kullanılamadı.*"

/-- Sentinel returned by `chat_message` on a safety block. -/
def CHAT_BLOCKED_MSG : String :=
  "Yanıt, güvenlik politikalarını ihlal ettiği için engellendi. Lütfen sorunuzu değiştirip tekrar deneyin."

/-- Disclosure suffix appended by `chat_message` when `_fallback_used` is
set. -/
def CHAT_FALLBACK_NOTICE : String :=
  "\n\n---\n*Not: Bu yanıt alternatif bir model (gemini-1.5-flash) kullanılarak oluşturulmuştur. Ana model kota sınırlaması nedeniyle kullanılamadı.*"

namespace GeminiClient

/-- The response-reading tail that `generate_project_ideas` and
`chat_message` both end with (same code in the source, with each method's
own sentinel and disclosure suffix): read `.text`, on `ValueError` return
the sentinel, otherwise append the disclosure suffix when
`_fallback_used` is set. -/
def readResponseText (sentinel notice : String)
    (r : RetryResult GenResponse) :
    Except (Option PyError) String × ClientState :=
  match r.result with
  | .error e => (.error e, r.finalState)
  | .ok resp =>
    match resp.text with
    | none => (.ok sentinel, r.finalState)
    | some t =>
        if r.finalState.fallback_used then
          (.ok (t ++ notice), r.finalState)
        else (.ok t, r.finalState)

/-- `GeminiClient.generate_project_ideas`.  The images argument only
changes the payload handed to the wrapped callable, which `behavior`
already abstracts, so it does not appear.  The pair is (returned value or
raised error, state of the client afterwards). -/
def generateProjectIdeas (env : Env) (st : ClientState)
    (behavior : Nat → Except PyError GenResponse)
    (temperature : Option ℚ) (max_tokens : Option Nat)
    (safety_level : Option String) :
    Except (Option PyError) String × ClientState :=
  match (if st.model.isNone then
           configureModel env st none temperature max_tokens safety_level
         else .ok st) with
  | .error e => (.error (some e), st)
  | .ok st1 =>
      readResponseText GENERATE_BLOCKED_MSG GENERATE_FALLBACK_NOTICE
        (withRetry env st1 behavior)

/-- `GeminiClient.create_chat_session` (the transcript itself is
abstracted to presence).  A failing `start_chat` raises after the lazy
model configuration has already mutated the client. -/
def createChatSession (env : Env) (st : ClientState) :
    Except PyError Unit × ClientState :=
  match (if st.model.isNone then
           configureModel env st none none none none
         else .ok st) with
  | .error e => (.error e, st)
  | .ok st1 =>
      if env.startChatFails then (.error env.startChatError, st1)
      else (.ok (), { st1 with chat_session := some () })

/-- `GeminiClient.chat_message`. -/
def chatMessage (env : Env) (st : ClientState)
    (behavior : Nat → Except PyError GenResponse) :
    Except (Option PyError) String × ClientState :=
  match (if st.chat_session.isNone then createChatSession env st
         else (.ok (), st)) with
  | (.error e, st1) => (.error (some e), st1)
  | (.ok _, st1) =>
      readResponseText CHAT_BLOCKED_MSG CHAT_FALLBACK_NOTICE
        (withRetry env st1 behavior)

end GeminiClient

/-- The operations a client instance performs during its lifetime, with
the argument shapes their in-repo call sites use: every call of
`_configure_model` outside `_switch_to_fallback_model` omits
`model_name`. -/
inductive ClientOp where
  | configure (temperature : Option ℚ) (max_tokens : Option Nat)
      (safety_level : Option String)
  | createChat
  | generate (behavior : Nat → Except PyError GenResponse)
      (temperature : Option ℚ) (max_tokens : Option Nat)
      (safety_level : Option String)
  | chat (behavior : Nat → Except PyError GenResponse)
  | fallbackSwitch

namespace GeminiClient

/-- The client state after one operation (whether the operation returned
or raised). -/
def stepState (env : Env) (st : ClientState) : ClientOp → ClientState
  | .configure t mt sl =>
      match configureModel env st none t mt sl with
      | .ok st1 => st1
      | .error _ => st
  | .createChat => (createChatSession env st).2
  | .generate behavior t mt sl =>
      (generateProjectIdeas env st behavior t mt sl).2
  | .chat behavior => (chatMessage env st behavior).2
  | .fallbackSwitch => (switchToFallbackModel env st).1

/-- The client state after a sequence of operations. -/
def execOps (env : Env) (st : ClientState) : List ClientOp → ClientState
  | [] => st
  | op :: ops => execOps env (stepState env st op) ops

end GeminiClient

namespace GeminiClient

/-- Once `_fallback_used` is set, the retry loop never clears it. -/
theorem withRetryAux_fallback_mono {α : Type} (env : Env)
    (behavior : Nat → Except PyError α) (ra rd : Nat) (st : ClientState)
    (attempts calls : Nat) (sleeps : List Nat) (lastErr : Option PyError)
    (h : st.fallback_used = true) :
    (withRetryAux env behavior ra rd st attempts calls sleeps
        lastErr).finalState.fallback_used = true := by
  refine withRetryAux.induct env behavior ra rd
    (fun st attempts calls sleeps lastErr =>
      st.fallback_used = true →
        (withRetryAux env behavior ra rd st attempts calls sleeps
            lastErr).finalState.fallback_used = true)
    ?_ ?_ ?_ ?_ ?_ ?_ ?_ st attempts calls sleeps lastErr h
  · intro st a c sl le hlt v hbeh hfb
    rw [withRetryAux]
    simp [hlt, hbeh, hfb]
  · intro st a c sl le hlt e hbeh hq st1 hsw ih hfb
    rw [withRetryAux]
    simp only [hlt, if_true, hbeh, hq, ite_true]
    split
    · next st2 hsw2 =>
        rw [hsw] at hsw2
        simp only [Prod.mk.injEq] at hsw2
        exact hsw2.1 ▸ ih ((switch_true_shape env st st1 hsw).2.2)
    · next st2 hsw2 =>
        rw [hsw] at hsw2
        simp at hsw2
  · intro st a c sl le hlt e hbeh hq st1 hsw hlt2 ih hfb
    rw [withRetryAux]
    simp only [hlt, if_true, hbeh, hq, ite_true]
    split
    · next st2 hsw2 =>
        rw [hsw] at hsw2
        simp at hsw2
    · next st2 hsw2 =>
        rw [hsw] at hsw2
        simp only [Prod.mk.injEq] at hsw2
        have hst : st1 = st := switch_false_shape env st st1 hsw
        rw [if_pos hlt2, ← hsw2.1, hst]
        exact (switch_false_shape env st st1 hsw) ▸ ih (hst ▸ hfb)
  · intro st a c sl le hlt e hbeh hq st1 hsw hlt2 hfb
    rw [withRetryAux]
    simp only [hlt, if_true, hbeh, hq, ite_true]
    split
    · next st2 hsw2 =>
        rw [hsw] at hsw2
        simp at hsw2
    · next st2 hsw2 =>
        rw [hsw] at hsw2
        simp only [Prod.mk.injEq] at hsw2
        rw [if_neg hlt2, ← hsw2.1]
        exact (switch_false_shape env st st1 hsw) ▸ hfb
  · intro st a c sl le hlt e hbeh hq hlt2 ih hfb
    rw [withRetryAux]
    simp only [hlt, if_true, hbeh, hq, ite_false, if_pos hlt2, ite_true]
    exact ih hfb
  · intro st a c sl le hlt e hbeh hq hlt2 hfb
    rw [withRetryAux]
    simp only [hlt, if_true, hbeh, hq, ite_false, if_neg hlt2]
    exact hfb
  · intro st a c sl le hlt hfb
    rw [withRetryAux]
    simp only [if_neg hlt]
    exact hfb

/-- Once the client is on the fallback model, the retry loop keeps it
there. -/
theorem withRetryAux_current_mono {α : Type} (env : Env)
    (behavior : Nat → Except PyError α) (ra rd : Nat) (st : ClientState)
    (attempts calls : Nat) (sleeps : List Nat) (lastErr : Option PyError)
    (h : st.current_model_name = FALLBACK_MODEL) :
    (withRetryAux env behavior ra rd st attempts calls sleeps
        lastErr).finalState.current_model_name = FALLBACK_MODEL := by
  refine withRetryAux.induct env behavior ra rd
    (fun st attempts calls sleeps lastErr =>
      st.current_model_name = FALLBACK_MODEL →
        (withRetryAux env behavior ra rd st attempts calls sleeps
            lastErr).finalState.current_model_name = FALLBACK_MODEL)
    ?_ ?_ ?_ ?_ ?_ ?_ ?_ st attempts calls sleeps lastErr h
  · intro st a c sl le hlt v hbeh hfb
    rw [withRetryAux]
    simp [hlt, hbeh, hfb]
  · intro st a c sl le hlt e hbeh hq st1 hsw ih hfb
    exact absurd hfb (switch_true_shape env st st1 hsw).2.1
  · intro st a c sl le hlt e hbeh hq st1 hsw hlt2 ih hfb
    rw [withRetryAux]
    simp only [hlt, if_true, hbeh, hq, ite_true]
    split
    · next st2 hsw2 =>
        rw [hsw] at hsw2
        simp at hsw2
    · next st2 hsw2 =>
        rw [hsw] at hsw2
        simp only [Prod.mk.injEq] at hsw2
        have hst : st1 = st := switch_false_shape env st st1 hsw
        rw [if_pos hlt2, ← hsw2.1, hst]
        exact (switch_false_shape env st st1 hsw) ▸ ih (hst ▸ hfb)
  · intro st a c sl le hlt e hbeh hq st1 hsw hlt2 hfb
    rw [withRetryAux]
    simp only [hlt, if_true, hbeh, hq, ite_true]
    split
    · next st2 hsw2 =>
        rw [hsw] at hsw2
        simp at hsw2
    · next st2 hsw2 =>
        rw [hsw] at hsw2
        simp only [Prod.mk.injEq] at hsw2
        rw [if_neg hlt2, ← hsw2.1]
        exact (switch_false_shape env st st1 hsw) ▸ hfb
  · intro st a c sl le hlt e hbeh hq hlt2 ih hfb
    rw [withRetryAux]
    simp only [hlt, if_true, hbeh, hq, ite_false, if_pos hlt2, ite_true]
    exact ih hfb
  · intro st a c sl le hlt e hbeh hq hlt2 hfb
    rw [withRetryAux]
    simp only [hlt, if_true, hbeh, hq, ite_false, if_neg hlt2]
    exact hfb
  · intro st a c sl le hlt hfb
    rw [withRetryAux]
    simp only [if_neg hlt]
    exact hfb

/-- Bound on the number of invocations the loop still performs: the
remaining per-model budget, plus one whole fresh budget if the fallback
switch (which resets the attempt counter) is still ahead. -/
theorem withRetryAux_calls_le {α : Type} (env : Env)
    (behavior : Nat → Except PyError α) (ra rd : Nat) (st : ClientState)
    (attempts calls : Nat) (sleeps : List Nat) (lastErr : Option PyError) :
    (withRetryAux env behavior ra rd st attempts calls sleeps
        lastErr).calls ≤
      calls + (ra - attempts) +
        (if st.current_model_name = FALLBACK_MODEL then 0 else ra) := by
  refine withRetryAux.induct env behavior ra rd
    (fun st attempts calls sleeps lastErr =>
      (withRetryAux env behavior ra rd st attempts calls sleeps
          lastErr).calls ≤
        calls + (ra - attempts) +
          (if st.current_model_name = FALLBACK_MODEL then 0 else ra))
    ?_ ?_ ?_ ?_ ?_ ?_ ?_ st attempts calls sleeps lastErr
  · intro st a c sl le hlt v hbeh
    rw [withRetryAux]
    simp only [hlt, if_true, hbeh, ite_true]
    split <;> omega
  · intro st a c sl le hlt e hbeh hq st1 hsw ih
    rw [withRetryAux]
    simp only [hlt, if_true, hbeh, hq, ite_true]
    split
    · next st2 hsw2 =>
        rw [hsw] at hsw2
        simp only [Prod.mk.injEq] at hsw2
        have hsh := switch_true_shape env st st1 hsw
        rw [← hsw2.1]
        rw [if_pos hsh.1] at ih
        rw [if_neg hsh.2.1]
        omega
    · next st2 hsw2 =>
        rw [hsw] at hsw2
        simp at hsw2
  · intro st a c sl le hlt e hbeh hq st1 hsw hlt2 ih
    rw [withRetryAux]
    simp only [hlt, if_true, hbeh, hq, ite_true]
    split
    · next st2 hsw2 =>
        rw [hsw] at hsw2
        simp at hsw2
    · next st2 hsw2 =>
        rw [hsw] at hsw2
        simp only [Prod.mk.injEq] at hsw2
        have hst : st1 = st := switch_false_shape env st st1 hsw
        rw [if_pos hlt2, ← hsw2.1, hst]
        rw [hst] at ih
        revert ih
        split <;> omega
  · intro st a c sl le hlt e hbeh hq st1 hsw hlt2
    rw [withRetryAux]
    simp only [hlt, if_true, hbeh, hq, ite_true]
    split
    · next st2 hsw2 =>
        rw [hsw] at hsw2
        simp at hsw2
    · next st2 hsw2 =>
        rw [hsw] at hsw2
        simp only [Prod.mk.injEq] at hsw2
        rw [if_neg hlt2, ← hsw2.1]
        show c + 1 ≤ c + (ra - a) +
          (if st.current_model_name = FALLBACK_MODEL then 0 else ra)
        split <;> omega
  · intro st a c sl le hlt e hbeh hq hlt2 ih
    rw [withRetryAux]
    simp only [hlt, if_true, hbeh, hq, Bool.false_eq_true, if_false,
      ite_false, if_pos hlt2, ite_true]
    revert ih
    split <;> omega
  · intro st a c sl le hlt e hbeh hq hlt2
    rw [withRetryAux]
    simp only [hlt, if_true, hbeh, hq, Bool.false_eq_true, if_false,
      ite_false, if_neg hlt2]
    show c + 1 ≤ c + (ra - a) +
      (if st.current_model_name = FALLBACK_MODEL then 0 else ra)
    split <;> omega
  · intro st a c sl le hlt
    rw [withRetryAux]
    simp only [if_neg hlt]
    show c ≤ c + (ra - a) +
      (if st.current_model_name = FALLBACK_MODEL then 0 else ra)
    split <;> omega

/-- The handle a successful `_configure_model` installs (spelled out for
use in proofs). -/
def builtHandle (st : ClientState) (model_name : Option String)
    (temperature : Option ℚ) (max_tokens : Option Nat)
    (safety_level : Option String) : ModelHandle :=
  { model_name := pyOrStr model_name st.current_model_name
    generation_config :=
      { temperature := pyOrQ temperature DEFAULT_TEMPERATURE
        max_output_tokens := pyOrNat max_tokens DEFAULT_MAX_TOKENS
        top_p := DEFAULT_TOP_P  -- the literal 0.95
        top_k := 40 }
    safety_settings :=
      { harassment := safetyMappingGet safety_level
        hate_speech := safetyMappingGet safety_level
        sexually_explicit := safetyMappingGet safety_level
        dangerous_content := safetyMappingGet safety_level } }

/-- `_configure_model`, written as one conditional. -/
theorem configureModel_eq (env : Env) (st : ClientState)
    (mn : Option String) (t : Option ℚ) (mt : Option Nat)
    (sl : Option String) :
    configureModel env st mn t mt sl =
      if env.buildFails (pyOrStr mn st.current_model_name) then
        .error env.buildError
      else
        .ok { st with
              model := some (builtHandle st mn t mt sl)
              current_model_name := pyOrStr mn st.current_model_name } := rfl

/-- A successful configuration touches only the handle and the current
model name; with `model_name` omitted the current model name is also
kept. -/
theorem configureModel_ok_preserves (env : Env) (st st1 : ClientState)
    (mn : Option String) (t : Option ℚ) (mt : Option Nat) (sl : Option String)
    (h : configureModel env st mn t mt sl = .ok st1) :
    st1.fallback_used = st.fallback_used ∧
      st1.retry_attempts = st.retry_attempts ∧
      st1.retry_delay = st.retry_delay ∧
      st1.chat_session = st.chat_session ∧
      (mn = none → st1.current_model_name = st.current_model_name) := by
  rw [configureModel_eq] at h
  split at h
  · exact absurd h (by simp)
  · simp only [Except.ok.injEq] at h
    subst h
    refine ⟨rfl, rfl, rfl, rfl, ?_⟩
    intro hmn
    subst hmn
    rfl

/-- `_with_retry` never clears `_fallback_used`. -/
theorem withRetry_fallback_mono {α : Type} (env : Env) (st : ClientState)
    (behavior : Nat → Except PyError α) (h : st.fallback_used = true) :
    (withRetry env st behavior).finalState.fallback_used = true :=
  withRetryAux_fallback_mono env behavior st.retry_attempts st.retry_delay
    st 0 0 [] none h

/-- `_with_retry` never leaves the fallback model. -/
theorem withRetry_current_mono {α : Type} (env : Env) (st : ClientState)
    (behavior : Nat → Except PyError α)
    (h : st.current_model_name = FALLBACK_MODEL) :
    (withRetry env st behavior).finalState.current_model_name =
      FALLBACK_MODEL :=
  withRetryAux_current_mono env behavior st.retry_attempts st.retry_delay
    st 0 0 [] none h

/-- `create_chat_session` never clears `_fallback_used` and never moves
off the current model (it configures with `model_name` omitted). -/
theorem createChatSession_state_preserves (env : Env) (st : ClientState) :
    ((createChatSession env st).2).fallback_used = st.fallback_used ∧
      ((createChatSession env st).2).current_model_name =
        st.current_model_name ∧
      ((createChatSession env st).2).retry_attempts = st.retry_attempts ∧
      ((createChatSession env st).2).retry_delay = st.retry_delay := by
  unfold createChatSession
  cases hm : st.model.isNone with
  | true =>
      simp only [hm, if_true, ite_true]
      cases hc : configureModel env st none none none none with
      | ok st1 =>
          have hp := configureModel_ok_preserves env st st1 none none none none hc
          cases hsc : env.startChatFails <;>
            simp [hc, hsc, hp.1, hp.2.1, hp.2.2.1, hp.2.2.2.2 rfl]
      | error e => simp [hc]
  | false =>
      simp only [Bool.false_eq_true, if_false, ite_false]
      cases hsc : env.startChatFails <;> simp [hsc]

/-- The state component of the response-reading tail is always the
loop's final state. -/
theorem readResponseText_snd (sentinel notice : String)
    (r : RetryResult GenResponse) :
    (readResponseText sentinel notice r).2 = r.finalState := by
  unfold readResponseText
  split
  · rfl
  · split
    · rfl
    · split <;> rfl

/-- The state component of `generate_project_ideas`, independent of how
the returned text is assembled. -/
theorem generateProjectIdeas_snd (env : Env) (st : ClientState)
    (behavior : Nat → Except PyError GenResponse) (t : Option ℚ)
    (mt : Option Nat) (sl : Option String) :
    (generateProjectIdeas env st behavior t mt sl).2 =
      match (if st.model.isNone then
               configureModel env st none t mt sl
             else .ok st) with
      | .error _ => st
      | .ok st1 => (withRetry env st1 behavior).finalState := by
  unfold generateProjectIdeas
  split
  · rfl
  · rw [readResponseText_snd]

/-- The state component of `chat_message`. -/
theorem chatMessage_snd (env : Env) (st : ClientState)
    (behavior : Nat → Except PyError GenResponse) :
    (chatMessage env st behavior).2 =
      match (if st.chat_session.isNone then createChatSession env st
             else (.ok (), st)) with
      | (.error _, st1) => st1
      | (.ok _, st1) => (withRetry env st1 behavior).finalState := by
  unfold chatMessage
  split
  · rfl
  · rw [readResponseText_snd]

/-- The state after one client operation never clears `_fallback_used`. -/
theorem stepState_fallback_mono (env : Env) (st : ClientState)
    (op : ClientOp) (h : st.fallback_used = true) :
    (stepState env st op).fallback_used = true := by
  cases op with
  | configure t mt sl =>
      simp only [stepState]
      cases hc : configureModel env st none t mt sl with
      | ok st1 =>
          exact (configureModel_ok_preserves env st st1 none t mt sl hc).1.trans h
      | error e => exact h
  | createChat =>
      simp only [stepState]
      exact (createChatSession_state_preserves env st).1.trans h
  | generate behavior t mt sl =>
      simp only [stepState]
      rw [generateProjectIdeas_snd]
      cases hm : st.model.isNone with
      | true =>
          simp only [hm, if_true, ite_true]
          cases hc : configureModel env st none t mt sl with
          | ok st1 =>
              exact withRetry_fallback_mono env st1 behavior
                ((configureModel_ok_preserves env st st1 none t mt sl hc).1.trans h)
          | error e => exact h
      | false =>
          simp only [Bool.false_eq_true, if_false, ite_false]
          exact withRetry_fallback_mono env st behavior h
  | chat behavior =>
      simp only [stepState]
      rw [chatMessage_snd]
      cases hm : st.chat_session.isNone with
      | true =>
          simp only [hm, if_true, ite_true]
          have hp : ((createChatSession env st).2).fallback_used = true :=
            (createChatSession_state_preserves env st).1.trans h
          cases hcs : createChatSession env st with
          | mk res st1 =>
              rw [hcs] at hp
              cases res with
              | error e => exact hp
              | ok u => exact withRetry_fallback_mono env st1 behavior hp
      | false =>
          simp only [Bool.false_eq_true, if_false, ite_false]
          exact withRetry_fallback_mono env st behavior h
  | fallbackSwitch =>
      simp only [stepState]
      cases hsw : switchToFallbackModel env st with
      | mk st1 b =>
          cases b with
          | true => exact (switch_true_shape env st st1 hsw).2.2
          | false => exact (switch_false_shape env st st1 hsw) ▸ h

/-- The state after one client operation never moves off the fallback
model once it is the current model. -/
theorem stepState_current_mono (env : Env) (st : ClientState)
    (op : ClientOp) (h : st.current_model_name = FALLBACK_MODEL) :
    (stepState env st op).current_model_name = FALLBACK_MODEL := by
  cases op with
  | configure t mt sl =>
      simp only [stepState]
      cases hc : configureModel env st none t mt sl with
      | ok st1 =>
          exact ((configureModel_ok_preserves env st st1 none t mt sl hc).2.2.2.2
            rfl).trans h
      | error e => exact h
  | createChat =>
      simp only [stepState]
      exact (createChatSession_state_preserves env st).2.1.trans h
  | generate behavior t mt sl =>
      simp only [stepState]
      rw [generateProjectIdeas_snd]
      cases hm : st.model.isNone with
      | true =>
          simp only [hm, if_true, ite_true]
          cases hc : configureModel env st none t mt sl with
          | ok st1 =>
              exact withRetry_current_mono env st1 behavior
                (((configureModel_ok_preserves env st st1 none t mt sl hc).2.2.2.2
                  rfl).trans h)
          | error e => exact h
      | false =>
          simp only [Bool.false_eq_true, if_false, ite_false]
          exact withRetry_current_mono env st behavior h
  | chat behavior =>
      simp only [stepState]
      rw [chatMessage_snd]
      cases hm : st.chat_session.isNone with
      | true =>
          simp only [hm, if_true, ite_true]
          have hp : ((createChatSession env st).2).current_model_name =
              FALLBACK_MODEL :=
            (createChatSession_state_preserves env st).2.1.trans h
          cases hcs : createChatSession env st with
          | mk res st1 =>
              rw [hcs] at hp
              cases res with
              | error e => exact hp
              | ok u => exact withRetry_current_mono env st1 behavior hp
      | false =>
          simp only [Bool.false_eq_true, if_false, ite_false]
          exact withRetry_current_mono env st behavior h
  | fallbackSwitch =>
      simp only [stepState]
      cases hsw : switchToFallbackModel env st with
      | mk st1 b =>
          cases b with
          | true => exact (switch_true_shape env st st1 hsw).1
          | false => exact (switch_false_shape env st st1 hsw) ▸ h

/-- Over a whole lifetime of operations, `_fallback_used` never reverts
and the fallback model, once current, stays current. -/
theorem execOps_mono (env : Env) (st : ClientState) (ops : List ClientOp) :
    (st.fallback_used = true → (execOps env st ops).fallback_used = true) ∧
      (st.current_model_name = FALLBACK_MODEL →
        (execOps env st ops).current_model_name = FALLBACK_MODEL) := by
  induction ops generalizing st with
  | nil => exact ⟨fun h => h, fun h => h⟩
  | cons op ops ih =>
      refine ⟨fun h => ?_, fun h => ?_⟩
      · exact (ih (stepState env st op)).1 (stepState_fallback_mono env st op h)
      · exact (ih (stepState env st op)).2 (stepState_current_mono env st op h)

end GeminiClient

/-- `s.endswith(pat)`. -/
def strEndsWith (s pat : String) : Bool :=
  pat.toList.isSuffixOf s.toList

/-- Fixture: an environment in which every handle construction and
`start_chat` succeed. -/
def envOK : Env :=
  ⟨fun _ => false, ⟨none, "build failure"⟩, false, ⟨none, "start_chat failure"⟩⟩

/-- Fixture: an environment in which only building the fallback model's
handle fails. -/
def envFB : Env :=
  ⟨fun n => n == FALLBACK_MODEL, ⟨none, "fallback build failure"⟩, false,
    ⟨none, "start_chat failure"⟩⟩

/-- Fixture: the state `__init__` produces for key `"k"`. -/
def stInit : ClientState :=
  { api_key := "k", model := none, chat_session := none,
    retry_attempts := RETRY_ATTEMPTS, retry_delay := RETRY_DELAY_BASE,
    current_model_name := DEFAULT_MODEL, fallback_used := false }

/-- Fixture: a configured client that has already switched to the
fallback model. -/
def stFB : ClientState :=
  { stInit with
    model := some (GeminiClient.builtHandle stInit none none none none)
    chat_session := some ()
    current_model_name := FALLBACK_MODEL
    fallback_used := true }

/-- Fixture: a configured client still on the primary model. -/
def stCfg : ClientState :=
  { stInit with
    model := some (GeminiClient.builtHandle stInit none none none none)
    chat_session := some () }

/-- Fixture: a non-quota transient error. -/
def nonQuotaErr : PyError := ⟨some 500, "internal server error"⟩

/-- Fixture: a quota error recognized by status code. -/
def quotaErr : PyError := ⟨some 429, "quota exceeded"⟩

/-- Fixture: every invocation fails with the non-quota error. -/
def behNonQuota : Nat → Except PyError GenResponse :=
  fun _ => .error nonQuotaErr

/-- Fixture: every invocation fails with the quota error. -/
def behQuota : Nat → Except PyError GenResponse :=
  fun _ => .error quotaErr

/-- Fixture: every invocation succeeds with a safety-blocked response. -/
def behBlocked : Nat → Except PyError GenResponse :=
  fun _ => .ok ⟨none⟩

/-- Fixture: an environment in which every handle construction fails. -/
def envAllFail : Env :=
  ⟨fun _ => true, ⟨none, "build failure"⟩, false,
    ⟨none, "start_chat failure"⟩⟩

/-- Fixture: the rational 1/2 in lowest terms (a concrete non-zero
temperature). -/
def halfQ : ℚ := ⟨1, 2, by decide, by decide⟩

/-- Fixture: every invocation succeeds with the text "hello". -/
def behHello : Nat → Except PyError GenResponse :=
  fun _ => .ok ⟨some "hello"⟩

example : GeminiClient.isQuotaError ⟨some 429, "boom"⟩ = true := by decide

example : GeminiClient.isQuotaError ⟨none, "Rate LIMIT hit"⟩ = true := by decide

example : GeminiClient.isQuotaError ⟨some 500, "server"⟩ = false := by decide

example : GeminiClient.isQuotaError ⟨some 500, "quota exceeded"⟩ = true := by decide

/-- C3 counterexample: an error carrying the non-429 status code 500 but
quota wording in its text IS classified as a quota error — the classifier
falls through to keyword matching whenever the status code differs from
429, so the presence of a status code does not decide the
classification. -/
theorem C3_status_code_counterexample :
    GeminiClient.isQuotaError ⟨some 500, "quota exceeded"⟩ = true ∧
      (⟨some 500, "quota exceeded"⟩ : PyError).status_code = some 500 ∧
      (500 : Nat) ≠ QUOTA_ERROR_CODE := by
  refine ⟨by decide, rfl, by decide⟩

/-- C3 (amended): `_is_quota_error` returns true exactly when the status
code equals 429 or the lower-cased error text contains one of the quota
keywords; keyword matching applies whether or not a status code is
present. -/
theorem C3_quota_classifier_spec (e : PyError) :
    GeminiClient.isQuotaError e = true ↔
      (e.status_code = some QUOTA_ERROR_CODE ∨
        ∃ k ∈ quota_keywords, strContainsSub (strLower e.msg) k = true) := by
  rcases e with ⟨sc, msg⟩
  cases sc with
  | none => simp [GeminiClient.isQuotaError, List.any_eq_true]
  | some code =>
      by_cases hc : code = QUOTA_ERROR_CODE
      · subst hc
        simp [GeminiClient.isQuotaError, List.any_eq_true]
      · simp [GeminiClient.isQuotaError, List.any_eq_true, hc,
          Option.some.injEq]

/-- C8: with no credential in either the constructor argument or the
environment, construction itself raises an error whose message contains
"API anahtarı eksik"; with a (non-empty) credential from either source,
construction succeeds. -/
theorem C8_api_key_required :
    (GeminiClient.init none none = .error ⟨none, API_KEY_MISSING_MSG⟩ ∧
      strContainsSub API_KEY_MISSING_MSG "API anahtarı eksik" = true) ∧
    (∀ s : String, s ≠ "" → ∀ envKey : Option String,
      ∃ st, GeminiClient.init (some s) envKey = .ok st ∧ st.api_key = s) ∧
    (∀ s : String, s ≠ "" →
      ∃ st, GeminiClient.init none (some s) = .ok st ∧ st.api_key = s) := by
  refine ⟨⟨rfl, by decide⟩, ?_, ?_⟩
  · intro s hs envKey
    refine ⟨{ stInit with api_key := s }, ?_, rfl⟩
    simp [GeminiClient.init, pyOrStr, hs, stInit]
  · intro s hs
    refine ⟨{ stInit with api_key := s }, ?_, rfl⟩
    simp [GeminiClient.init, pyOrStr, hs, stInit]

/-- C8 witness at the concrete key `"k"`. -/
theorem C8_api_key_required_witness :
    ∃ st, GeminiClient.init (some "k") none = .ok st ∧ st.api_key = "k" :=
  C8_api_key_required.2.1 "k" (by decide) none

/-- C9: a successful configuration applies one threshold uniformly to all
four harm categories; that threshold comes from the fixed table, is
`BLOCK_NONE` for an omitted level, is `BLOCK_NONE` for every string that
is not one of the four keys, and follows the table on the four keys. -/
theorem C9_safety_mapping (env : Env) (st st1 : ClientState)
    (t : Option ℚ) (mt : Option Nat) (sl : Option String)
    (h : GeminiClient.configureModel env st none t mt sl = .ok st1) :
    (∃ m, st1.model = some m ∧
        ∀ c : HarmCategory, m.safety_settings.get c = safetyMappingGet sl) ∧
    safetyMappingGet none = .BLOCK_NONE ∧
    (∀ s : String, s ∉ safety_mapping.map Prod.fst →
        safetyMappingGet (some s) = .BLOCK_NONE) ∧
    safetyMappingGet (some "Minimum (BLOCK_NONE)") = .BLOCK_NONE ∧
    safetyMappingGet (some "Düşük (BLOCK_ONLY_HIGH)") = .BLOCK_ONLY_HIGH ∧
    safetyMappingGet (some "Orta (BLOCK_MEDIUM_AND_ABOVE)") =
      .BLOCK_MEDIUM_AND_ABOVE ∧
    safetyMappingGet (some "Yüksek (BLOCK_LOW_AND_ABOVE)") =
      .BLOCK_LOW_AND_ABOVE := by
  refine ⟨?_, rfl, ?_, by decide, by decide, by decide, by decide⟩
  · rw [GeminiClient.configureModel_eq] at h
    split at h
    · exact absurd h (by simp)
    · simp only [Except.ok.injEq] at h
      subst h
      exact ⟨_, rfl, fun c => by cases c <;> rfl⟩
  · intro s hs
    have hnone : safety_mapping.find? (fun p => p.1 == s) = none := by
      rw [List.find?_eq_none]
      intro p hp
      simp only [beq_iff_eq]
      intro hps
      exact hs (hps ▸ List.mem_map_of_mem Prod.fst hp)
    unfold safetyMappingGet
    simp [hnone]

/-- C9 witness: configuring with the unrecognized level "çok yüksek"
succeeds against `envOK` and installs `BLOCK_NONE` on every category. -/
theorem C9_safety_mapping_witness :
    safetyMappingGet (some "çok yüksek") = .BLOCK_NONE ∧
    ∃ m, ({ stInit with
            model := some (GeminiClient.builtHandle stInit none none none
              (some "çok yüksek"))
            current_model_name := DEFAULT_MODEL } : ClientState).model =
          some m ∧
      ∀ c : HarmCategory,
        m.safety_settings.get c = safetyMappingGet (some "çok yüksek") := by
  have h := C9_safety_mapping envOK stInit
    { stInit with
      model := some (GeminiClient.builtHandle stInit none none none
        (some "çok yüksek"))
      current_model_name := DEFAULT_MODEL }
    none none (some "çok yüksek") rfl
  exact ⟨h.2.2.1 "çok yüksek" (by decide), h.1⟩

/-- C4 counterexample: configuring with the explicitly supplied values
`temperature = 0.0` and `max_tokens = 0` does NOT use them — Python's
`or`-defaulting treats them as falsy and silently replaces both with the
process-wide defaults 0.7 and 8192. -/
theorem C4_zero_arguments_counterexample :
    GeminiClient.configureModel envOK stInit none (some 0) (some 0) none =
      .ok { stInit with
            model := some (GeminiClient.builtHandle stInit none (some 0)
              (some 0) none)
            current_model_name := DEFAULT_MODEL } ∧
    (GeminiClient.builtHandle stInit none (some 0) (some 0)
        none).generation_config.temperature = DEFAULT_TEMPERATURE ∧
    (GeminiClient.builtHandle stInit none (some 0) (some 0)
        none).generation_config.max_output_tokens = DEFAULT_MAX_TOKENS ∧
    DEFAULT_TEMPERATURE ≠ 0 ∧ DEFAULT_MAX_TOKENS ≠ 0 := by
  refine ⟨rfl, by decide, by decide, by decide, by decide⟩

/-- C4 (amended): a successful configuration resolves every omitted OR
zero-valued parameter to its process-wide default (model name to the
current model, temperature to 0.7, max output tokens to 8192), and uses
every explicitly supplied non-zero value as given. -/
theorem C4_configure_defaulting (env : Env) (st st1 : ClientState)
    (t : Option ℚ) (mt : Option Nat) (sl : Option String)
    (h : GeminiClient.configureModel env st none t mt sl = .ok st1) :
    ∃ m, st1.model = some m ∧
      m.model_name = st.current_model_name ∧
      st1.current_model_name = st.current_model_name ∧
      ((t = none ∨ t = some 0) →
        m.generation_config.temperature = DEFAULT_TEMPERATURE) ∧
      (∀ v : ℚ, t = some v → v ≠ 0 →
        m.generation_config.temperature = v) ∧
      ((mt = none ∨ mt = some 0) →
        m.generation_config.max_output_tokens = DEFAULT_MAX_TOKENS) ∧
      (∀ n : Nat, mt = some n → n ≠ 0 →
        m.generation_config.max_output_tokens = n) := by
  rw [GeminiClient.configureModel_eq] at h
  split at h
  · exact absurd h (by simp)
  · simp only [Except.ok.injEq] at h
    subst h
    refine ⟨_, rfl, rfl, rfl, ?_, ?_, ?_, ?_⟩
    · rintro (rfl | rfl) <;> rfl
    · rintro v rfl hv
      simp [GeminiClient.builtHandle, pyOrQ, hv]
    · rintro (rfl | rfl) <;> rfl
    · rintro n rfl hn
      simp [GeminiClient.builtHandle, pyOrNat, hn]

/-- C4 witness: temperature 0.5 and max_tokens 1024 are used as given,
while an omitted safety level still configures. -/
theorem C4_configure_defaulting_witness :
    ∃ m, ({ stInit with
            model := some (GeminiClient.builtHandle stInit none
              (some halfQ) (some 1024) none)
            current_model_name := DEFAULT_MODEL } : ClientState).model =
          some m ∧
      m.model_name = stInit.current_model_name ∧
      m.generation_config.temperature = halfQ ∧
      m.generation_config.max_output_tokens = 1024 := by
  have h := C4_configure_defaulting envOK stInit
    { stInit with
      model := some (GeminiClient.builtHandle stInit none (some halfQ)
        (some 1024) none)
      current_model_name := DEFAULT_MODEL }
    (some halfQ) (some 1024) none rfl
  obtain ⟨m, hm, hname, _, _, htemp, _, htok⟩ := h
  exact ⟨m, hm, hname, htemp halfQ rfl (by decide), htok 1024 rfl (by decide)⟩

/-- C2: with three consecutive non-quota errors and the client's
`retry_attempts = 3`, `retry_delay = 2`, the wrapper invokes the wrapped
callable exactly 3 times, sleeps `base * 2^(n-1)` seconds after the n-th
failure for n = 1, 2 (the failures followed by a retry), never starts a
fourth invocation, and re-raises the third error unchanged. -/
theorem C2_retry_exhaustion {α : Type} (env : Env) (st : ClientState)
    (behavior : Nat → Except PyError α) (e0 e1 e2 : PyError)
    (hra : st.retry_attempts = RETRY_ATTEMPTS)
    (hrd : st.retry_delay = RETRY_DELAY_BASE)
    (h0 : behavior 0 = .error e0) (h1 : behavior 1 = .error e1)
    (h2 : behavior 2 = .error e2)
    (hq0 : GeminiClient.isQuotaError e0 = false)
    (hq1 : GeminiClient.isQuotaError e1 = false)
    (hq2 : GeminiClient.isQuotaError e2 = false) :
    GeminiClient.withRetry env st behavior =
      ⟨.error (some e2), 3,
       [RETRY_DELAY_BASE * 2 ^ 0, RETRY_DELAY_BASE * 2 ^ 1], st⟩ := by
  unfold GeminiClient.withRetry
  rw [hra, hrd]
  rw [GeminiClient.withRetryAux]
  simp only [show (0 : Nat) < RETRY_ATTEMPTS by decide, if_true, h0, hq0,
    Bool.false_eq_true, if_false, ite_false,
    show 0 + 1 < RETRY_ATTEMPTS by decide, ite_true]
  rw [GeminiClient.withRetryAux]
  simp only [show (1 : Nat) < RETRY_ATTEMPTS by decide, if_true, h1, hq1,
    Bool.false_eq_true, if_false, ite_false,
    show 1 + 1 < RETRY_ATTEMPTS by decide, ite_true]
  rw [GeminiClient.withRetryAux]
  simp only [show (2 : Nat) < RETRY_ATTEMPTS by decide, if_true, h2, hq2,
    Bool.false_eq_true, if_false, ite_false,
    show ¬(2 + 1 < RETRY_ATTEMPTS) by decide, ite_false]
  rfl

/-- C2 witness: three concrete 500-errors exhaust the loop with calls 3
and sleeps [2, 4]. -/
theorem C2_retry_exhaustion_witness :
    GeminiClient.withRetry envOK stInit behNonQuota =
      ⟨.error (some nonQuotaErr), 3,
       [RETRY_DELAY_BASE * 2 ^ 0, RETRY_DELAY_BASE * 2 ^ 1], stInit⟩ :=
  C2_retry_exhaustion envOK stInit behNonQuota nonQuotaErr nonQuotaErr
    nonQuotaErr rfl rfl rfl rfl rfl (by decide) (by decide) (by decide)

/-- C10: `_with_retry` always returns after at most `2 * retry_attempts`
(= 6) invocations of the wrapped callable: the attempt counter is reset
only by a successful fallback switch, which can happen at most once
because the switch is a no-op once the fallback model is current.  (The
loop is total by construction — `withRetryAux` is a terminating
function.) -/
theorem C10_bounded_invocations {α : Type} (env : Env) (st : ClientState)
    (behavior : Nat → Except PyError α)
    (hra : st.retry_attempts = RETRY_ATTEMPTS) :
    (GeminiClient.withRetry env st behavior).calls ≤ 2 * RETRY_ATTEMPTS ∧
      2 * RETRY_ATTEMPTS = 6 := by
  refine ⟨?_, rfl⟩
  have h := GeminiClient.withRetryAux_calls_le env behavior
    st.retry_attempts st.retry_delay st 0 0 [] none
  unfold GeminiClient.withRetry
  rw [hra] at h ⊢
  revert h
  split <;> (intro h; omega)

/-- C10 witness: the always-quota trace against a fully working
environment performs 4 ≤ 6 invocations. -/
theorem C10_bounded_invocations_witness :
    (GeminiClient.withRetry envOK stInit behQuota).calls ≤
      2 * RETRY_ATTEMPTS :=
  (C10_bounded_invocations envOK stInit behQuota rfl).1

namespace GeminiClient

/-- When the first invocation succeeds, the loop returns immediately:
one call, no sleeps, state untouched. -/
theorem withRetry_first_ok {α : Type} (env : Env) (st : ClientState)
    (behavior : Nat → Except PyError α) (v : α)
    (hra : 0 < st.retry_attempts) (hb : behavior 0 = .ok v) :
    withRetry env st behavior = ⟨.ok v, 1, [], st⟩ := by
  unfold withRetry
  rw [withRetryAux]
  simp [hra, hb]

end GeminiClient

/-- C7: when the provider signals empty output (the `.text` accessor
raises), both `generate_project_ideas` and `chat_message` return their
fixed sentinel string instead of raising. -/
theorem C7_safety_block_sentinel (env : Env) (st : ClientState)
    (behavior : Nat → Except PyError GenResponse) (resp : GenResponse)
    (t : Option ℚ) (mt : Option Nat) (sl : Option String)
    (hra : 0 < st.retry_attempts)
    (hb : behavior 0 = .ok resp) (ht : resp.text = none)
    (hm : st.model.isNone = false) (hcs : st.chat_session.isNone = false) :
    (GeminiClient.generateProjectIdeas env st behavior t mt sl).1 =
      .ok GENERATE_BLOCKED_MSG ∧
    (GeminiClient.chatMessage env st behavior).1 = .ok CHAT_BLOCKED_MSG := by
  have hr := GeminiClient.withRetry_first_ok env st behavior resp hra hb
  constructor
  · unfold GeminiClient.generateProjectIdeas
    simp only [hm, Bool.false_eq_true, if_false, ite_false]
    rw [hr]
    unfold GeminiClient.readResponseText
    simp [ht]
  · unfold GeminiClient.chatMessage
    simp only [hcs, Bool.false_eq_true, if_false, ite_false]
    rw [hr]
    unfold GeminiClient.readResponseText
    simp [ht]

/-- C7 witness: against a configured client with an open chat session, a
blocked response yields the two sentinels. -/
theorem C7_safety_block_sentinel_witness :
    (GeminiClient.generateProjectIdeas envOK stCfg behBlocked none none
        none).1 = .ok GENERATE_BLOCKED_MSG ∧
    (GeminiClient.chatMessage envOK stCfg behBlocked).1 =
      .ok CHAT_BLOCKED_MSG :=
  C7_safety_block_sentinel envOK stCfg behBlocked ⟨none⟩ none none none
    (by decide) rfl rfl rfl rfl

/-- Appending a suffix makes `endswith` that suffix true. -/
theorem strEndsWith_append (a b : String) : strEndsWith (a ++ b) b = true := by
  unfold strEndsWith
  have h : (a ++ b).toList = a.toList ++ b.toList := by simp [String.toList]
  rw [h, List.isSuffixOf_iff_suffix]
  exact List.suffix_append _ _

/-- C6 counterexample: a client that has switched to the fallback model
(`fallback_used = true`) and receives a safety-blocked response returns
the bare sentinel from both operations — the disclosure suffix is NOT
appended on the sentinel path, and the sentinel does not end with it. -/
theorem C6_blocked_without_notice_counterexample :
    (GeminiClient.generateProjectIdeas envOK stFB behBlocked none none
        none).1 = .ok GENERATE_BLOCKED_MSG ∧
    (GeminiClient.generateProjectIdeas envOK stFB behBlocked none none
        none).2.fallback_used = true ∧
    strEndsWith GENERATE_BLOCKED_MSG GENERATE_FALLBACK_NOTICE = false ∧
    (GeminiClient.chatMessage envOK stFB behBlocked).1 =
      .ok CHAT_BLOCKED_MSG ∧
    (GeminiClient.chatMessage envOK stFB behBlocked).2.fallback_used =
      true ∧
    strEndsWith CHAT_BLOCKED_MSG CHAT_FALLBACK_NOTICE = false := by
  have hr := GeminiClient.withRetry_first_ok envOK stFB behBlocked ⟨none⟩
    (by decide) rfl
  have hg : GeminiClient.generateProjectIdeas envOK stFB behBlocked none
      none none = (.ok GENERATE_BLOCKED_MSG, stFB) := by
    unfold GeminiClient.generateProjectIdeas
    simp only [show stFB.model.isNone = false from rfl, Bool.false_eq_true,
      if_false, ite_false]
    rw [hr]
    unfold GeminiClient.readResponseText
    simp
  have hc : GeminiClient.chatMessage envOK stFB behBlocked =
      (.ok CHAT_BLOCKED_MSG, stFB) := by
    unfold GeminiClient.chatMessage
    simp only [show stFB.chat_session.isNone = false from rfl,
      Bool.false_eq_true, if_false, ite_false]
    rw [hr]
    unfold GeminiClient.readResponseText
    simp
  refine ⟨by rw [hg], by rw [hg]; rfl, by decide, by rw [hc],
    by rw [hc]; rfl, by decide⟩

/-- C6 (amended): when `_fallback_used` is true at the time of return and
the response carries text, the returned string is the text with the fixed
disclosure suffix appended (so it ends with the suffix); but when the
response is safety-blocked the bare sentinel is returned without the
suffix, even though `_fallback_used` is true. -/
theorem C6_fallback_notice (env : Env) (st : ClientState)
    (behavior : Nat → Except PyError GenResponse) (resp : GenResponse)
    (hra : 0 < st.retry_attempts) (hb : behavior 0 = .ok resp)
    (hm : st.model.isNone = false) (hcs : st.chat_session.isNone = false)
    (hfb : st.fallback_used = true) :
    (∀ txt, resp.text = some txt →
      (GeminiClient.generateProjectIdeas env st behavior none none
          none).1 = .ok (txt ++ GENERATE_FALLBACK_NOTICE) ∧
      strEndsWith (txt ++ GENERATE_FALLBACK_NOTICE)
        GENERATE_FALLBACK_NOTICE = true ∧
      (GeminiClient.chatMessage env st behavior).1 =
        .ok (txt ++ CHAT_FALLBACK_NOTICE) ∧
      strEndsWith (txt ++ CHAT_FALLBACK_NOTICE) CHAT_FALLBACK_NOTICE =
        true) ∧
    (resp.text = none →
      (GeminiClient.generateProjectIdeas env st behavior none none
          none).1 = .ok GENERATE_BLOCKED_MSG ∧
      (GeminiClient.chatMessage env st behavior).1 =
        .ok CHAT_BLOCKED_MSG) := by
  have hr := GeminiClient.withRetry_first_ok env st behavior resp hra hb
  constructor
  · intro txt ht
    refine ⟨?_, strEndsWith_append txt GENERATE_FALLBACK_NOTICE, ?_,
      strEndsWith_append txt CHAT_FALLBACK_NOTICE⟩
    · unfold GeminiClient.generateProjectIdeas
      simp only [hm, Bool.false_eq_true, if_false, ite_false]
      rw [hr]
      unfold GeminiClient.readResponseText
      simp [ht, hfb]
    · unfold GeminiClient.chatMessage
      simp only [hcs, Bool.false_eq_true, if_false, ite_false]
      rw [hr]
      unfold GeminiClient.readResponseText
      simp [ht, hfb]
  · intro ht
    constructor
    · unfold GeminiClient.generateProjectIdeas
      simp only [hm, Bool.false_eq_true, if_false, ite_false]
      rw [hr]
      unfold GeminiClient.readResponseText
      simp [ht]
    · unfold GeminiClient.chatMessage
      simp only [hcs, Bool.false_eq_true, if_false, ite_false]
      rw [hr]
      unfold GeminiClient.readResponseText
      simp [ht]

/-- C6 witness: after a fallback switch, the text "hello" comes back with
the disclosure suffix from both operations. -/
theorem C6_fallback_notice_witness :
    (GeminiClient.generateProjectIdeas envOK stFB behHello none none
        none).1 = .ok ("hello" ++ GENERATE_FALLBACK_NOTICE) ∧
    strEndsWith ("hello" ++ GENERATE_FALLBACK_NOTICE)
      GENERATE_FALLBACK_NOTICE = true ∧
    (GeminiClient.chatMessage envOK stFB behHello).1 =
      .ok ("hello" ++ CHAT_FALLBACK_NOTICE) ∧
    strEndsWith ("hello" ++ CHAT_FALLBACK_NOTICE) CHAT_FALLBACK_NOTICE =
      true :=
  (C6_fallback_notice envOK stFB behHello ⟨some "hello"⟩ (by decide) rfl
    rfl rfl rfl).1 "hello" rfl

namespace GeminiClient

/-- One loop iteration on a quota error whose fallback switch reports
failure, with retries remaining: sleep and go round again. -/
theorem withRetryAux_quota_noswitch_step {α : Type} (env : Env)
    (behavior : Nat → Except PyError α) (ra rd : Nat) (st : ClientState)
    (attempts calls : Nat) (sleeps : List Nat) (lastErr : Option PyError)
    (e : PyError) (hlt : attempts < ra) (hbeh : behavior calls = .error e)
    (hq : isQuotaError e = true)
    (hsw : switchToFallbackModel env st = (st, false))
    (hlt2 : attempts + 1 < ra) :
    withRetryAux env behavior ra rd st attempts calls sleeps lastErr =
      withRetryAux env behavior ra rd st (attempts + 1) (calls + 1)
        (sleeps ++ [rd * 2 ^ attempts]) (some e) := by
  rw [withRetryAux]
  simp only [hlt, if_true, hbeh, hq, ite_true]
  split
  · next st2 hsw2 =>
      rw [hsw] at hsw2
      simp at hsw2
  · next st2 hsw2 =>
      rw [hsw] at hsw2
      simp only [Prod.mk.injEq] at hsw2
      rw [if_pos hlt2, ← hsw2.1]

/-- The final loop iteration on a quota error whose fallback switch
reports failure: the error is re-raised. -/
theorem withRetryAux_quota_noswitch_last {α : Type} (env : Env)
    (behavior : Nat → Except PyError α) (ra rd : Nat) (st : ClientState)
    (attempts calls : Nat) (sleeps : List Nat) (lastErr : Option PyError)
    (e : PyError) (hlt : attempts < ra) (hbeh : behavior calls = .error e)
    (hq : isQuotaError e = true)
    (hsw : switchToFallbackModel env st = (st, false))
    (hlt2 : ¬(attempts + 1 < ra)) :
    withRetryAux env behavior ra rd st attempts calls sleeps lastErr =
      ⟨.error (some e), calls + 1, sleeps, st⟩ := by
  rw [withRetryAux]
  simp only [hlt, if_true, hbeh, hq, ite_true]
  split
  · next st2 hsw2 =>
      rw [hsw] at hsw2
      simp at hsw2
  · next st2 hsw2 =>
      rw [hsw] at hsw2
      simp only [Prod.mk.injEq] at hsw2
      rw [if_neg hlt2, ← hsw2.1]

end GeminiClient

/-- C5 counterexample: with the fallback model's handle construction
failing, a run of quota errors does NOT propagate the build failure: the
switch swallows it, the loop keeps retrying the primary model (3 calls,
backoff sleeps 2 and 4), and what reaches the caller is the quota error,
not the configuration error. -/
theorem C5_swallowed_build_failure_counterexample :
    GeminiClient.withRetry envFB stInit behQuota =
      ⟨.error (some quotaErr), 3,
       [RETRY_DELAY_BASE * 2 ^ 0, RETRY_DELAY_BASE * 2 ^ 1], stInit⟩ ∧
    envFB.buildFails FALLBACK_MODEL = true ∧
    GeminiClient.isQuotaError quotaErr = true ∧
    quotaErr ≠ envFB.buildError := by
  have hsw : GeminiClient.switchToFallbackModel envFB stInit =
      (stInit, false) := by decide
  have hq : GeminiClient.isQuotaError quotaErr = true := by decide
  refine ⟨?_, rfl, hq, by decide⟩
  unfold GeminiClient.withRetry
  rw [GeminiClient.withRetryAux_quota_noswitch_step envFB behQuota
      stInit.retry_attempts stInit.retry_delay stInit 0 0 [] none quotaErr
      (by decide) rfl hq hsw (by decide),
    GeminiClient.withRetryAux_quota_noswitch_step envFB behQuota
      stInit.retry_attempts stInit.retry_delay stInit 1 1 _ (some quotaErr)
      quotaErr (by decide) rfl hq hsw (by decide),
    GeminiClient.withRetryAux_quota_noswitch_last envFB behQuota
      stInit.retry_attempts stInit.retry_delay stInit 2 2 _ (some quotaErr)
      quotaErr (by decide) rfl hq hsw (by decide)]
  rfl

/-- C5 (amended): a failure to build the model handle propagates
immediately on the direct configuration paths — `_configure_model`
itself, the lazy configuration inside `generate_project_ideas`, and the
one inside `create_chat_session` — but NOT on the fallback-switch path
inside the retry loop: there `_switch_to_fallback_model` catches the
configuration error and merely reports `False`, leaving the state
unchanged, and the loop carries on with the primary model. -/
theorem C5_build_failure_propagation (env : Env) (st : ClientState)
    (behavior : Nat → Except PyError GenResponse) (t : Option ℚ)
    (mt : Option Nat) (sl : Option String)
    (hb : env.buildFails st.current_model_name = true) :
    GeminiClient.configureModel env st none t mt sl =
      .error env.buildError ∧
    (st.model = none →
      GeminiClient.generateProjectIdeas env st behavior t mt sl =
        (.error (some env.buildError), st)) ∧
    (st.model = none →
      GeminiClient.createChatSession env st =
        (.error env.buildError, st)) ∧
    (st.current_model_name ≠ FALLBACK_MODEL →
      env.buildFails FALLBACK_MODEL = true →
      GeminiClient.switchToFallbackModel env st = (st, false)) := by
  have hcfg : ∀ t1 : Option ℚ, ∀ mt1 : Option Nat, ∀ sl1 : Option String,
      GeminiClient.configureModel env st none t1 mt1 sl1 =
        .error env.buildError := by
    intro t1 mt1 sl1
    rw [GeminiClient.configureModel_eq]
    simp [pyOrStr, hb]
  refine ⟨hcfg t mt sl, ?_, ?_, ?_⟩
  · intro hm
    unfold GeminiClient.generateProjectIdeas
    simp [hm, hcfg t mt sl]
  · intro hm
    unfold GeminiClient.createChatSession
    simp [hm, hcfg none none none]
  · intro hne hbf
    unfold GeminiClient.switchToFallbackModel
    have h1 : (st.current_model_name == FALLBACK_MODEL) = false := by
      simp [hne]
    rw [h1]
    simp only [Bool.false_eq_true, if_false, ite_false]
    rw [GeminiClient.configureModel_eq]
    have h2 : pyOrStr (some FALLBACK_MODEL) st.current_model_name =
        FALLBACK_MODEL := by
      simp [pyOrStr, FALLBACK_MODEL]
    rw [h2, if_pos hbf]

/-- C5 witness: with every handle construction failing, both the lazy
configuration inside `generate` and the direct configuration raise the
build error, while the fallback switch swallows it. -/
theorem C5_build_failure_propagation_witness :
    GeminiClient.configureModel envAllFail stInit none none none none =
      .error envAllFail.buildError ∧
    GeminiClient.generateProjectIdeas envAllFail stInit behHello none none
      none = (.error (some envAllFail.buildError), stInit) ∧
    GeminiClient.switchToFallbackModel envAllFail stInit =
      (stInit, false) := by
  have h := C5_build_failure_propagation envAllFail stInit behHello none
    none none rfl
  exact ⟨h.1, h.2.1 rfl, h.2.2.2 (by decide) rfl⟩

namespace GeminiClient

/-- When the client is still on the primary model and the fallback
handle's construction succeeds, the switch moves to the fallback model,
sets `_fallback_used`, and reports `True`. -/
theorem switchToFallbackModel_success (env : Env) (st : ClientState)
    (hne : st.current_model_name ≠ FALLBACK_MODEL)
    (hbf : env.buildFails FALLBACK_MODEL = false) :
    (switchToFallbackModel env st).1.current_model_name =
        FALLBACK_MODEL ∧
      (switchToFallbackModel env st).1.fallback_used = true ∧
      (switchToFallbackModel env st).2 = true := by
  unfold switchToFallbackModel
  have h1 : (st.current_model_name == FALLBACK_MODEL) = false := by
    simp [hne]
  rw [h1]
  simp only [Bool.false_eq_true, if_false, ite_false]
  rw [configureModel_eq]
  have h2 : pyOrStr (some FALLBACK_MODEL) st.current_model_name =
      FALLBACK_MODEL := by
    simp [pyOrStr, FALLBACK_MODEL]
  rw [h2, hbf]
  simp

end GeminiClient

/-- C1: (i) no single operation and (ii) no lifetime of operations ever
clears `_fallback_used`; (iii) no operation moves off the fallback model
once it is current; (iv) once on the fallback model, a further switch is
a no-op returning `False` (so the switch happens at most once and never
switches back); (v) while on the primary model, a successful switch moves
to the fallback model exactly once; and (vi) a quota-classified error on
the primary model with a working fallback build leaves the retry loop
with `_fallback_used = true` and the fallback model current. -/
theorem C1_fallback_invariant (env : Env) (st : ClientState) :
    (∀ op : ClientOp, st.fallback_used = true →
        (GeminiClient.stepState env st op).fallback_used = true) ∧
    (∀ ops : List ClientOp, st.fallback_used = true →
        (GeminiClient.execOps env st ops).fallback_used = true) ∧
    (∀ op : ClientOp, st.current_model_name = FALLBACK_MODEL →
        (GeminiClient.stepState env st op).current_model_name =
          FALLBACK_MODEL) ∧
    (st.current_model_name = FALLBACK_MODEL →
        GeminiClient.switchToFallbackModel env st = (st, false)) ∧
    (st.current_model_name ≠ FALLBACK_MODEL →
      env.buildFails FALLBACK_MODEL = false →
        (GeminiClient.switchToFallbackModel env st).1.current_model_name =
            FALLBACK_MODEL ∧
          (GeminiClient.switchToFallbackModel env st).1.fallback_used =
            true ∧
          (GeminiClient.switchToFallbackModel env st).2 = true) ∧
    (∀ (behavior : Nat → Except PyError GenResponse) (e : PyError),
      st.current_model_name ≠ FALLBACK_MODEL →
      env.buildFails FALLBACK_MODEL = false →
      0 < st.retry_attempts → behavior 0 = .error e →
      GeminiClient.isQuotaError e = true →
        (GeminiClient.withRetry env st behavior).finalState.fallback_used =
            true ∧
          (GeminiClient.withRetry env st
              behavior).finalState.current_model_name = FALLBACK_MODEL) := by
  refine ⟨GeminiClient.stepState_fallback_mono env st,
    fun ops => (GeminiClient.execOps_mono env st ops).1,
    GeminiClient.stepState_current_mono env st, ?_, ?_, ?_⟩
  · intro h
    unfold GeminiClient.switchToFallbackModel
    simp [h]
  · intro hne hbf
    exact GeminiClient.switchToFallbackModel_success env st hne hbf
  · intro behavior e hne hbf hra hb hq
    unfold GeminiClient.withRetry
    rw [GeminiClient.withRetryAux]
    simp only [hra, if_true, hb, hq, ite_true]
    have hs := GeminiClient.switchToFallbackModel_success env st hne hbf
    split
    · next st2 hsw2 =>
        have hsh := GeminiClient.switch_true_shape env st st2 hsw2
        exact ⟨GeminiClient.withRetryAux_fallback_mono env behavior
            st.retry_attempts st.retry_delay st2 0 1 [] (some e) hsh.2.2,
          GeminiClient.withRetryAux_current_mono env behavior
            st.retry_attempts st.retry_delay st2 0 1 [] (some e) hsh.1⟩
    · next st2 hsw2 =>
        rw [hsw2] at hs
        simp at hs

/-- C1 witness: a quota error on a fresh client switches to the fallback
model with `_fallback_used = true`; once on the fallback, the switch is a
no-op and a further chat operation keeps the flag. -/
theorem C1_fallback_invariant_witness :
    ((GeminiClient.withRetry envOK stInit
          behQuota).finalState.fallback_used = true ∧
      (GeminiClient.withRetry envOK stInit
          behQuota).finalState.current_model_name = FALLBACK_MODEL) ∧
    GeminiClient.switchToFallbackModel envOK stFB = (stFB, false) ∧
    (GeminiClient.execOps envOK stFB [ClientOp.chat behHello]).fallback_used =
      true :=
  ⟨(C1_fallback_invariant envOK stInit).2.2.2.2.2 behQuota quotaErr
      (by decide) rfl (by decide) rfl (by decide),
    (C1_fallback_invariant envOK stFB).2.2.2.1 rfl,
    (C1_fallback_invariant envOK stFB).2.1 [ClientOp.chat behHello] rfl⟩

end AIFD
